import Mathlib

/-!
Shallow embedding of the `LoyaltyConsumer` contract (payment escrow state
machine) of this repository, together with the Ledger / Shop / CurrencyRate
collaborator interfaces it consumes.  Addresses, ids, hashes, signatures and
amounts are modelled as `Nat`; the collaborator conversions and the
cryptographic primitives (keccak over abi-encoded tuples, ECDSA recovery) are
abstract function parameters bundled in an `Env`.  A call either returns
`Except.ok` with the post-state and the balance carried by the emitted
`LoyaltyPaymentEvent`, or `Except.error` with the revert code; per the
execution model a revert rolls the whole call back, which the `run*` wrappers
make explicit by returning the unchanged pre-state on error.
-/

namespace LoyaltyConsumer

/-- Status of a loyalty payment record, from `LoyaltyPaymentStatus`. -/
inductive LoyaltyPaymentStatus where
  | INVALID
  | OPENED_PAYMENT
  | CLOSED_PAYMENT
  | FAILED_PAYMENT
  | OPENED_CANCEL
  | CLOSED_CANCEL
  | FAILED_CANCEL
deriving DecidableEq, Repr

/-- Modelled from the spec: the shop registry's shop status; the core only
tests whether a shop is `ACTIVE`. -/
inductive ShopStatus where
  | INVALID
  | ACTIVE
deriving DecidableEq, Repr

/-- Modelled from the spec: the shop registry record
`shopOf(shopId) -> {status, currency, account, delegate}`. -/
structure ShopData where
  status : ShopStatus
  currency : Nat
  account : Nat
  delegator : Nat
deriving DecidableEq, Repr

/-- The stored payment record `LoyaltyPaymentData`. -/
structure LoyaltyPaymentData where
  paymentId : Nat
  purchaseId : Nat
  currency : Nat
  shopId : Nat
  account : Nat
  secretLock : Nat
  timestamp : Nat
  paidPoint : Nat
  paidToken : Nat
  paidValue : Nat
  feePoint : Nat
  feeToken : Nat
  feeValue : Nat
  usedValueShop : Nat
  status : LoyaltyPaymentStatus
deriving DecidableEq, Repr

/-- The default record a Solidity mapping yields for an untouched key:
all fields zero, status `INVALID`. -/
def LoyaltyPaymentData.empty : LoyaltyPaymentData :=
  { paymentId := 0, purchaseId := 0, currency := 0, shopId := 0, account := 0,
    secretLock := 0, timestamp := 0, paidPoint := 0, paidToken := 0,
    paidValue := 0, feePoint := 0, feeToken := 0, feeValue := 0,
    usedValueShop := 0, status := LoyaltyPaymentStatus.INVALID }

/-- Input data of `openNewLoyaltyPayment` (`LoyaltyPaymentInputData`). -/
structure LoyaltyPaymentInputData where
  paymentId : Nat
  purchaseId : Nat
  amount : Nat
  currency : Nat
  shopId : Nat
  account : Nat
  signature : Nat
  secretLock : Nat
deriving DecidableEq, Repr

/-- Mutable chain state touched by the contract: the payment-record mapping,
and the Ledger / Shop collaborator state (point balances, token balances,
per-account nonces, per-shop used-amount ledger). -/
structure ChainState where
  loyaltyPayments : Nat → LoyaltyPaymentData
  pointBalance : Nat → Nat
  tokenBalance : Nat → Nat
  nonce : Nat → Nat
  usedAmount : Nat → Int

/-- Immutable environment: chain id, the contract's configured accounts, the
payment fee (basis points), the CurrencyRate conversions, the shop registry
view, and the cryptographic primitives, all abstract. -/
structure Env where
  chainId : Nat
  temporaryAddress : Nat
  systemAccount : Nat
  paymentFeeAccount : Nat
  paymentFee : Nat
  convertCurrencyToPoint : Nat → Nat → Nat
  convertPointToToken : Nat → Nat
  convertCurrency : Nat → Nat → Nat → Nat
  shopOf : Nat → ShopData
  recover : Nat → Nat → Nat
  keccakSecret : Nat → Nat
  hashOpen : Nat → Nat → Nat → Nat → Nat → Nat → Nat → Nat → Nat
  hashCancel : Nat → Nat → Nat → Nat → Nat → Nat

/-- Modelled from the spec: `DMS.zeroGWEI` (the DMS library is not part of
the sources) normalizes an amount by zeroing the sub-gwei digits, so fee
values carry no non-settleable fractional remainder. -/
def zeroGWEI (x : Nat) : Nat :=
  (x / 1000000000) * 1000000000

/-- Modelled from the spec: Ledger credit of points
(`ledgerContract.addPointBalance`), never fails. -/
def addPointBalance (account amount : Nat) (st : ChainState) : ChainState :=
  { st with pointBalance :=
      Function.update st.pointBalance account (st.pointBalance account + amount) }

/-- Modelled from the spec: Ledger debit of points
(`ledgerContract.subPointBalance`); fails the whole call if the balance
would go negative. -/
def subPointBalance (account amount : Nat) (st : ChainState) :
    Except String ChainState :=
  if amount ≤ st.pointBalance account then
    Except.ok ({ st with
      pointBalance :=
        Function.update st.pointBalance account
          (st.pointBalance account - amount) })
  else Except.error "ledger: insufficient point balance"

/-- Modelled from the spec: Ledger credit of tokens
(`ledgerContract.addTokenBalance`), never fails. -/
def addTokenBalance (account amount : Nat) (st : ChainState) : ChainState :=
  { st with tokenBalance :=
      Function.update st.tokenBalance account (st.tokenBalance account + amount) }

/-- Modelled from the spec: Ledger debit of tokens
(`ledgerContract.subTokenBalance`); fails the whole call if the balance
would go negative. -/
def subTokenBalance (account amount : Nat) (st : ChainState) :
    Except String ChainState :=
  if amount ≤ st.tokenBalance account then
    Except.ok ({ st with
      tokenBalance :=
        Function.update st.tokenBalance account
          (st.tokenBalance account - amount) })
  else Except.error "ledger: insufficient token balance"

/-- Modelled from the spec: Ledger atomic token transfer
(`ledgerContract.transferToken`), a debit followed by a credit. -/
def transferToken (sender receiver amount : Nat) (st : ChainState) :
    Except String ChainState :=
  match subTokenBalance sender amount st with
  | Except.error e => Except.error e
  | Except.ok st1 => Except.ok (addTokenBalance receiver amount st1)

/-- Modelled from the spec: Ledger nonce increment
(`ledgerContract.increaseNonce`). -/
def increaseNonce (account : Nat) (st : ChainState) : ChainState :=
  { st with nonce := Function.update st.nonce account (st.nonce account + 1) }

/-- Modelled from the spec: the shop registry's append of a used amount
(`shopContract.addUsedAmount`), keyed here by shop id. -/
def addUsedAmount (shopId : Nat) (amount : Int) (st : ChainState) : ChainState :=
  { st with usedAmount :=
      Function.update st.usedAmount shopId (st.usedAmount shopId + amount) }

/-- Modelled from the spec: the shop registry's explicit reversal of a used
amount (`shopContract.subUsedAmount`). -/
def subUsedAmount (shopId : Nat) (amount : Int) (st : ChainState) : ChainState :=
  { st with usedAmount :=
      Function.update st.usedAmount shopId (st.usedAmount shopId - amount) }

/-- Store a payment record in the `loyaltyPayments` mapping. -/
def setPayment (paymentId : Nat) (pay : LoyaltyPaymentData) (st : ChainState) :
    ChainState :=
  { st with loyaltyPayments := Function.update st.loyaltyPayments paymentId pay }

/-- The status guard of `openCancelLoyaltyPayment`, verbatim:
`(status != CLOSED_PAYMENT) || (status != FAILED_CANCEL)`; the call reverts
with "1532" when this is false. -/
def openCancelStatusGuard (s : LoyaltyPaymentStatus) : Bool :=
  (s != LoyaltyPaymentStatus.CLOSED_PAYMENT) ||
    (s != LoyaltyPaymentStatus.FAILED_CANCEL)

/-- `_openNewLoyaltyPaymentPoint`: conversions, fee computation, balance
check, escrow debit/credit, record creation, event emission. -/
def openNewLoyaltyPaymentPoint (env : Env) (now : Nat)
    (data : LoyaltyPaymentInputData) (st : ChainState) :
    Except String (ChainState × Nat) :=
  let paidPoint := env.convertCurrencyToPoint data.amount data.currency
  let paidToken := env.convertPointToToken paidPoint
  let feeValue := zeroGWEI (data.amount * env.paymentFee / 10000)
  let feePoint := env.convertCurrencyToPoint feeValue data.currency
  let feeToken := env.convertPointToToken feePoint
  if st.pointBalance data.account < paidPoint + feePoint then
    Except.error "1511"
  else
    match subPointBalance data.account (paidPoint + feePoint) st with
    | Except.error e => Except.error e
    | Except.ok st1 =>
      let st2 := addPointBalance env.temporaryAddress (paidPoint + feePoint) st1
      let pay : LoyaltyPaymentData :=
        { paymentId := data.paymentId, purchaseId := data.purchaseId,
          currency := data.currency, shopId := data.shopId,
          account := data.account, secretLock := data.secretLock,
          timestamp := now, paidPoint := paidPoint, paidToken := paidToken,
          paidValue := data.amount, feePoint := feePoint, feeToken := feeToken,
          feeValue := feeValue, usedValueShop := 0,
          status := LoyaltyPaymentStatus.OPENED_PAYMENT }
      let st3 := setPayment data.paymentId pay st2
      Except.ok (st3, st3.pointBalance data.account)

/-- `openNewLoyaltyPayment`: duplicate-id guard, payer signature
verification, nonce consumption, then the point-path open. -/
def openNewLoyaltyPayment (env : Env) (now : Nat)
    (data : LoyaltyPaymentInputData) (st : ChainState) :
    Except String (ChainState × Nat) :=
  if (st.loyaltyPayments data.paymentId).status ≠ LoyaltyPaymentStatus.INVALID then
    Except.error "1530"
  else
    let dataHash := env.hashOpen data.paymentId data.purchaseId data.amount
      data.currency data.shopId data.account env.chainId (st.nonce data.account)
    if env.recover dataHash data.signature ≠ data.account then
      Except.error "1501"
    else
      let st1 := increaseNonce data.account st
      openNewLoyaltyPaymentPoint env now data st1

/-- `closeNewLoyaltyPayment`: settle (`confirm = true`) or refund
(`confirm = false`) an opened payment after the secret is revealed. -/
def closeNewLoyaltyPayment (env : Env) (paymentId secret : Nat)
    (confirm : Bool) (st : ChainState) : Except String (ChainState × Nat) :=
  let pay := st.loyaltyPayments paymentId
  if pay.status ≠ LoyaltyPaymentStatus.OPENED_PAYMENT then
    Except.error "1531"
  else if pay.secretLock ≠ env.keccakSecret secret then
    Except.error "1505"
  else
    let totalPoint := pay.paidPoint + pay.feePoint
    if confirm then
      match subPointBalance env.temporaryAddress totalPoint st with
      | Except.error e => Except.error e
      | Except.ok st1 =>
        let st2 :=
          if pay.feeToken ≤ st1.tokenBalance env.systemAccount then
            addTokenBalance env.paymentFeeAccount pay.feeToken
              ({ st1 with
                tokenBalance :=
                  Function.update st1.tokenBalance env.systemAccount
                    (st1.tokenBalance env.systemAccount - pay.feeToken) })
          else st1
        let shop := env.shopOf pay.shopId
        let st3 :=
          if shop.status = ShopStatus.ACTIVE then
            let used := env.convertCurrency pay.paidValue pay.currency shop.currency
            addUsedAmount pay.shopId (used : Int)
              (setPayment paymentId ({ pay with usedValueShop := used }) st2)
          else st2
        let pay2 := st3.loyaltyPayments paymentId
        let st4 := setPayment paymentId
          ({ pay2 with status := LoyaltyPaymentStatus.CLOSED_PAYMENT }) st3
        Except.ok (st4, st4.pointBalance pay.account)
    else
      match subPointBalance env.temporaryAddress totalPoint st with
      | Except.error e => Except.error e
      | Except.ok st1 =>
        let st2 := addPointBalance pay.account totalPoint st1
        let st3 := setPayment paymentId
          ({ pay with status := LoyaltyPaymentStatus.FAILED_PAYMENT }) st2
        Except.ok (st3, st3.pointBalance pay.account)

/-- Shop-primary authorization of `openCancelLoyaltyPayment`: the signature
recovers, over the canonical hash carrying the shop account's current nonce,
to the shop's primary account (`pass1` in the source). -/
def openCancelPass1 (env : Env) (paymentId signature : Nat) (st : ChainState) :
    Bool :=
  let pay := st.loyaltyPayments paymentId
  let shopInfo := env.shopOf pay.shopId
  let dataHash1 := env.hashCancel paymentId pay.purchaseId shopInfo.account
    env.chainId (st.nonce shopInfo.account)
  env.recover dataHash1 signature == shopInfo.account

/-- Delegate authorization of `openCancelLoyaltyPayment`: a delegate is
registered and the signature recovers, over the canonical hash carrying the
delegate's current nonce, to the delegate (`pass2` in the source). -/
def openCancelPass2 (env : Env) (paymentId signature : Nat) (st : ChainState) :
    Bool :=
  let pay := st.loyaltyPayments paymentId
  let shopInfo := env.shopOf pay.shopId
  if shopInfo.delegator ≠ 0 then
    let dataHash2 := env.hashCancel paymentId pay.purchaseId
      shopInfo.delegator env.chainId (st.nonce shopInfo.delegator)
    env.recover dataHash2 signature == shopInfo.delegator
  else false

/-- `openCancelLoyaltyPayment`: status guard, 7-day window check, shop or
delegate authorization, shop-account nonce consumption, fee recovery into
holding, escrow re-credit, new secret lock, status `OPENED_CANCEL`. -/
def openCancelLoyaltyPayment (env : Env) (now paymentId secretLock signature : Nat)
    (st : ChainState) : Except String (ChainState × Nat) :=
  let pay := st.loyaltyPayments paymentId
  if openCancelStatusGuard pay.status then
    if now ≤ pay.timestamp + 86400 * 7 then
      let shopInfo := env.shopOf pay.shopId
      if openCancelPass1 env paymentId signature st ||
          openCancelPass2 env paymentId signature st then
        let st1 := increaseNonce shopInfo.account st
        if pay.feeToken ≤ st1.tokenBalance env.paymentFeeAccount then
          match transferToken env.paymentFeeAccount env.temporaryAddress
              pay.feeToken st1 with
          | Except.error e => Except.error e
          | Except.ok st2 =>
            let st3 := addPointBalance env.temporaryAddress
              (pay.paidPoint + pay.feePoint) st2
            let st4 := setPayment paymentId
              ({ pay with secretLock := secretLock,
                          status := LoyaltyPaymentStatus.OPENED_CANCEL }) st3
            Except.ok (st4, st4.pointBalance pay.account)
        else Except.error "1513"
      else Except.error "1501"
    else Except.error "1534"
  else Except.error "1532"

/-- `closeCancelLoyaltyPayment`: finalize (`confirm = true`) or reverse
(`confirm = false`) an opened cancellation after the secret is revealed. -/
def closeCancelLoyaltyPayment (env : Env) (paymentId secret : Nat)
    (confirm : Bool) (st : ChainState) : Except String (ChainState × Nat) :=
  let pay := st.loyaltyPayments paymentId
  if pay.status ≠ LoyaltyPaymentStatus.OPENED_CANCEL then
    Except.error "1533"
  else if pay.secretLock ≠ env.keccakSecret secret then
    Except.error "1505"
  else if confirm then
    match transferToken env.temporaryAddress env.systemAccount pay.feeToken st with
    | Except.error e => Except.error e
    | Except.ok st1 =>
      let st2 := addPointBalance pay.account (pay.paidPoint + pay.feePoint) st1
      let balance := st2.pointBalance pay.account
      let st3 := subUsedAmount pay.shopId (pay.usedValueShop : Int) st2
      let st4 := setPayment paymentId
        ({ pay with status := LoyaltyPaymentStatus.CLOSED_CANCEL }) st3
      Except.ok (st4, balance)
  else
    match transferToken env.temporaryAddress env.paymentFeeAccount
        pay.feeToken st with
    | Except.error e => Except.error e
    | Except.ok st1 =>
      match subPointBalance env.temporaryAddress (pay.paidPoint + pay.feePoint) st1 with
      | Except.error e => Except.error e
      | Except.ok st2 =>
        let balance := st2.pointBalance pay.account
        let st3 := setPayment paymentId
          ({ pay with status := LoyaltyPaymentStatus.FAILED_CANCEL }) st2
        Except.ok (st3, balance)

/-- `isAvailablePaymentId`: true iff the record is still `INVALID`. -/
def isAvailablePaymentId (paymentId : Nat) (st : ChainState) : Bool :=
  (st.loyaltyPayments paymentId).status == LoyaltyPaymentStatus.INVALID

/-- A call result is a revert. -/
def isRevert (r : Except String (ChainState × Nat)) : Bool :=
  match r with
  | Except.error _ => true
  | Except.ok _ => false

/-- The call committed and its post-state and emitted balance satisfy `P`. -/
def isOkAnd (r : Except String (ChainState × Nat))
    (P : ChainState → Nat → Prop) : Prop :=
  match r with
  | Except.ok (st, b) => P st b
  | Except.error _ => False

/-- Point balance of `a` in the post-state of a committed call
(`dflt` when the call reverted). -/
def pointAfter (r : Except String (ChainState × Nat)) (a dflt : Nat) : Nat :=
  match r with
  | Except.ok (st, _) => st.pointBalance a
  | Except.error _ => dflt

/-- Nonce of `a` in the post-state of a committed call
(`dflt` when the call reverted). -/
def nonceAfter (r : Except String (ChainState × Nat)) (a dflt : Nat) : Nat :=
  match r with
  | Except.ok (st, _) => st.nonce a
  | Except.error _ => dflt

/-- The point pool a payment's escrow moves through: the payer's point
balance plus the holding (temporary) account's point balance. -/
def pointPool (env : Env) (payer : Nat) (st : ChainState) : Nat :=
  st.pointBalance payer + st.pointBalance env.temporaryAddress

/-- Post-state of a committed call (`dflt` when the call reverted). -/
def stateAfter (r : Except String (ChainState × Nat)) (dflt : ChainState) :
    ChainState :=
  match r with
  | Except.ok (st, _) => st
  | Except.error _ => dflt

/-- Balance carried by the emitted event of a committed call
(`dflt` when the call reverted). -/
def balEmitted (r : Except String (ChainState × Nat)) (dflt : Nat) : Nat :=
  match r with
  | Except.ok (_, b) => b
  | Except.error _ => dflt

/-- Revert semantics of the execution environment: a failed
`closeNewLoyaltyPayment` rolls back, leaving the pre-state unchanged. -/
def runCloseNewLoyaltyPayment (env : Env) (paymentId secret : Nat)
    (confirm : Bool) (st : ChainState) : ChainState × Option Nat :=
  match closeNewLoyaltyPayment env paymentId secret confirm st with
  | Except.ok (st2, b) => (st2, some b)
  | Except.error _ => (st, none)

/-- Revert semantics of the execution environment: a failed
`openCancelLoyaltyPayment` rolls back, leaving the pre-state unchanged. -/
def runOpenCancelLoyaltyPayment (env : Env)
    (now paymentId secretLock signature : Nat) (st : ChainState) :
    ChainState × Option Nat :=
  match openCancelLoyaltyPayment env now paymentId secretLock signature st with
  | Except.ok (st2, b) => (st2, some b)
  | Except.error _ => (st, none)

/-- Revert semantics of the execution environment: a failed
`closeCancelLoyaltyPayment` rolls back, leaving the pre-state unchanged. -/
def runCloseCancelLoyaltyPayment (env : Env) (paymentId secret : Nat)
    (confirm : Bool) (st : ChainState) : ChainState × Option Nat :=
  match closeCancelLoyaltyPayment env paymentId secret confirm st with
  | Except.ok (st2, b) => (st2, some b)
  | Except.error _ => (st, none)

/-! ## Concrete fixtures for witnesses and counterexamples -/

/-- A concrete environment: holding account 0, system account 1,
fee-collection account 2, zero fee rate, identity conversions, and
crypto primitives arranged so that a hash recovers to the committed
signer (making every honest fixture signature verify). -/
def exEnv : Env :=
  { chainId := 1, temporaryAddress := 0, systemAccount := 1,
    paymentFeeAccount := 2, paymentFee := 0,
    convertCurrencyToPoint := fun a _ => a,
    convertPointToToken := fun p => p,
    convertCurrency := fun a _ _ => a,
    shopOf := fun _ =>
      { status := ShopStatus.ACTIVE, currency := 0, account := 7, delegator := 0 },
    recover := fun h _ => h,
    keccakSecret := fun s => s,
    hashOpen := fun _ _ _ _ _ acct _ _ => acct,
    hashCancel := fun _ _ signer _ _ => signer }

/-- A concrete open request: payer 10 pays 100 units under payment id 5. -/
def exData : LoyaltyPaymentInputData :=
  { paymentId := 5, purchaseId := 1, amount := 100, currency := 0, shopId := 3,
    account := 10, signature := 0, secretLock := 42 }

/-- A fresh state: payer 10 holds 1000 points, nothing else. -/
def exSt : ChainState :=
  { loyaltyPayments := fun _ => LoyaltyPaymentData.empty,
    pointBalance := fun a => if a = 10 then 1000 else 0,
    tokenBalance := fun _ => 0,
    nonce := fun _ => 0,
    usedAmount := fun _ => 0 }

/-- A state holding an opened payment: record 5 is `OPENED_PAYMENT` with
`paidPoint = 100`, `feePoint = 1`, `feeToken = 1`, secret lock 42; the payer
has 899 points, the holding account escrows 101 points, the system account
has no tokens (fee shortfall) and the fee-collection account has 5. -/
def exStOpened : ChainState :=
  { loyaltyPayments := fun pid =>
      if pid = 5 then
        { paymentId := 5, purchaseId := 1, currency := 0, shopId := 3,
          account := 10, secretLock := 42, timestamp := 0, paidPoint := 100,
          paidToken := 100, paidValue := 100, feePoint := 1, feeToken := 1,
          feeValue := 1, usedValueShop := 0,
          status := LoyaltyPaymentStatus.OPENED_PAYMENT }
      else LoyaltyPaymentData.empty,
    pointBalance := fun a => if a = 10 then 899 else if a = 0 then 101 else 0,
    tokenBalance := fun a => if a = 2 then 5 else 0,
    nonce := fun _ => 0,
    usedAmount := fun _ => 0 }

/-- A state holding an opened cancellation: record 5 is `OPENED_CANCEL` with
secret lock 43 and `usedValueShop = 100`; the holding account escrows 101
points and 1 token, and the fee-collection account has no tokens. -/
def exStCancelOpened : ChainState :=
  { loyaltyPayments := fun pid =>
      if pid = 5 then
        { paymentId := 5, purchaseId := 1, currency := 0, shopId := 3,
          account := 10, secretLock := 43, timestamp := 0, paidPoint := 100,
          paidToken := 100, paidValue := 100, feePoint := 1, feeToken := 1,
          feeValue := 1, usedValueShop := 100,
          status := LoyaltyPaymentStatus.OPENED_CANCEL }
      else LoyaltyPaymentData.empty,
    pointBalance := fun a => if a = 10 then 899 else if a = 0 then 101 else 0,
    tokenBalance := fun a => if a = 0 then 1 else 0,
    nonce := fun _ => 0,
    usedAmount := fun s => if s = 3 then 100 else 0 }

/-- An environment where shop 3 has a registered delegate (account 8) and the
signature only recovers to the delegate, never to the shop's primary
account 7: `recover` maps the delegate's canonical hash to the delegate and
everything else to an unrelated address. -/
def delegEnv : Env :=
  { exEnv with
    shopOf := fun _ =>
      { status := ShopStatus.ACTIVE, currency := 0, account := 7, delegator := 8 },
    recover := fun h _ => if h = 8 then 8 else 999 }

/-- The state produced by opening `exData` on `exSt` at time 99, spelled as
the open path constructs it: nonce consumed, 100 points moved from payer 10
to holding 0, and the `OPENED_PAYMENT` record stored under id 5. -/
def exStAfterOpen : ChainState :=
  setPayment 5
    { paymentId := 5, purchaseId := 1, currency := 0, shopId := 3,
      account := 10, secretLock := 42, timestamp := 99, paidPoint := 100,
      paidToken := 100, paidValue := 100, feePoint := 0, feeToken := 0,
      feeValue := 0, usedValueShop := 0,
      status := LoyaltyPaymentStatus.OPENED_PAYMENT }
    (addPointBalance 0 100
      ({ increaseNonce 10 exSt with
        pointBalance :=
          Function.update (increaseNonce 10 exSt).pointBalance 10
            ((increaseNonce 10 exSt).pointBalance 10 - 100) }))

/-! ## Shared helper lemmas -/

/-- The open-cancel status guard is a tautology: it holds for every status. -/
theorem statusGuard_eq_true (s : LoyaltyPaymentStatus) :
    openCancelStatusGuard s = true := by
  cases s <;> rfl

/-- Inversion of a successful point debit: the balance sufficed and the
post-state is the pointwise update. -/
theorem subPoint_ok_inv (account amount : Nat) (st st' : ChainState)
    (h : subPointBalance account amount st = Except.ok st') :
    amount ≤ st.pointBalance account ∧
    st' = { st with
      pointBalance :=
        Function.update st.pointBalance account
          (st.pointBalance account - amount) } := by
  unfold subPointBalance at h
  split at h
  · exact ⟨by assumption, by cases h; rfl⟩
  · cases h

/-- Inversion of a successful token transfer: the sender's balance sufficed
and the post-state is the debit followed by the credit. -/
theorem transferToken_ok_inv (sender receiver amount : Nat) (st st' : ChainState)
    (h : transferToken sender receiver amount st = Except.ok st') :
    amount ≤ st.tokenBalance sender ∧
    st' = addTokenBalance receiver amount
      ({ st with
        tokenBalance :=
          Function.update st.tokenBalance sender
            (st.tokenBalance sender - amount) }) := by
  unfold transferToken subTokenBalance at h
  split at h
  all_goals try cases h
  rename_i st1x heq
  split at heq
  · cases heq
    exact ⟨by assumption, rfl⟩
  · cases heq

/-- A failing token transfer only ever reports the ledger's
insufficient-balance message. -/
theorem transferToken_error_eq (sender receiver amount : Nat) (st : ChainState)
    (e : String) (h : transferToken sender receiver amount st = Except.error e) :
    e = "ledger: insufficient token balance" := by
  unfold transferToken at h
  cases h2 : subTokenBalance sender amount st with
  | ok st1 => rw [h2] at h; simp at h
  | error e2 =>
    rw [h2] at h
    simp at h
    unfold subTokenBalance at h2
    split at h2 <;> simp_all

/-- Running the open path on the concrete fixtures lands exactly on
`exStAfterOpen` with emitted balance 900. -/
theorem exStAfterOpen_spec :
    openNewLoyaltyPayment exEnv 99 exData exSt =
      Except.ok (exStAfterOpen, 900) := rfl

/-! ## Claims -/

/-- C1: the status guard of `openCancelLoyaltyPayment`, the disjunction
`(status != CLOSED_PAYMENT) || (status != FAILED_CANCEL)`, evaluates to true
for every status value, so the error branch with code "1532" is unreachable:
no call to `openCancelLoyaltyPayment` is ever rejected on account of the
record's current status. -/
theorem openCancel_statusGuard_tautology :
    (∀ s : LoyaltyPaymentStatus, openCancelStatusGuard s = true) ∧
    (∀ (env : Env) (now paymentId secretLock signature : Nat) (st : ChainState),
      openCancelLoyaltyPayment env now paymentId secretLock signature st ≠
        Except.error "1532") := by
  refine ⟨statusGuard_eq_true, ?_⟩
  intro env now paymentId secretLock signature st
  unfold openCancelLoyaltyPayment
  simp only [statusGuard_eq_true, if_true]
  split
  · split
    · split
      · cases htr : transferToken env.paymentFeeAccount env.temporaryAddress
            (st.loyaltyPayments paymentId).feeToken
            (increaseNonce
              (env.shopOf (st.loyaltyPayments paymentId).shopId).account st) with
        | ok st2 => simp
        | error e =>
          have he := transferToken_error_eq _ _ _ _ _ htr
          simp [he]
      · simp
    · simp
  · simp

/-- C8: invoking `openCancelLoyaltyPayment` strictly after the 7-day window
measured from the record's open timestamp fails with the window-expired
error "1534" and, by revert semantics, mutates nothing — for every
signature, valid or not. -/
theorem openCancel_window_expired
    (env : Env) (now paymentId secretLock signature : Nat) (st : ChainState)
    (h : (st.loyaltyPayments paymentId).timestamp + 86400 * 7 < now) :
    openCancelLoyaltyPayment env now paymentId secretLock signature st =
      Except.error "1534" ∧
    runOpenCancelLoyaltyPayment env now paymentId secretLock signature st =
      (st, none) := by
  have h1 : openCancelLoyaltyPayment env now paymentId secretLock signature st =
      Except.error "1534" := by
    unfold openCancelLoyaltyPayment
    simp only [statusGuard_eq_true, if_true]
    rw [if_neg (by omega)]
  refine ⟨h1, ?_⟩
  unfold runOpenCancelLoyaltyPayment
  rw [h1]

/-- Witness for C8 at a concrete input: the window of record 5 (opened at
time 0) is over at `now = 604801`, and the call reverts with "1534" even
though the fixture signature would verify. -/
theorem openCancel_window_expired_witness :
    (exStOpened.loyaltyPayments 5).timestamp + 86400 * 7 < 604801 ∧
    openCancelLoyaltyPayment exEnv 604801 5 77 0 exStOpened =
      Except.error "1534" ∧
    runOpenCancelLoyaltyPayment exEnv 604801 5 77 0 exStOpened =
      (exStOpened, none) :=
  ⟨by decide,
    openCancel_window_expired exEnv 604801 5 77 0 exStOpened (by decide)⟩

/-- C6: revealing a wrong secret (its hash differs from the record's stored
`secretLock`) makes both `closeNewLoyaltyPayment` and
`closeCancelLoyaltyPayment` fail before any balance mutation: the call
reverts and, by revert semantics, the record's status and every balance are
unchanged. -/
theorem close_wrong_secret_reverts
    (env : Env) (paymentId secret : Nat) (confirm : Bool) (st : ChainState)
    (h : env.keccakSecret secret ≠ (st.loyaltyPayments paymentId).secretLock) :
    isRevert (closeNewLoyaltyPayment env paymentId secret confirm st) = true ∧
    runCloseNewLoyaltyPayment env paymentId secret confirm st = (st, none) ∧
    isRevert (closeCancelLoyaltyPayment env paymentId secret confirm st) = true ∧
    runCloseCancelLoyaltyPayment env paymentId secret confirm st = (st, none) := by
  have h1 : closeNewLoyaltyPayment env paymentId secret confirm st =
      Except.error "1531" ∨
      closeNewLoyaltyPayment env paymentId secret confirm st =
      Except.error "1505" := by
    unfold closeNewLoyaltyPayment
    by_cases hs : (st.loyaltyPayments paymentId).status =
        LoyaltyPaymentStatus.OPENED_PAYMENT
    · right
      rw [if_neg (by simp [hs]), if_pos (fun heq => h heq.symm)]
    · left
      rw [if_pos hs]
  have h2 : closeCancelLoyaltyPayment env paymentId secret confirm st =
      Except.error "1533" ∨
      closeCancelLoyaltyPayment env paymentId secret confirm st =
      Except.error "1505" := by
    unfold closeCancelLoyaltyPayment
    by_cases hs : (st.loyaltyPayments paymentId).status =
        LoyaltyPaymentStatus.OPENED_CANCEL
    · right
      rw [if_neg (by simp [hs]), if_pos (fun heq => h heq.symm)]
    · left
      rw [if_pos hs]
  refine ⟨?_, ?_, ?_, ?_⟩
  · rcases h1 with h1 | h1 <;> rw [h1] <;> rfl
  · rcases h1 with h1 | h1 <;> (unfold runCloseNewLoyaltyPayment; rw [h1])
  · rcases h2 with h2 | h2 <;> rw [h2] <;> rfl
  · rcases h2 with h2 | h2 <;> (unfold runCloseCancelLoyaltyPayment; rw [h2])

/-- Witness for C6 at a concrete input: secret 41 hashes to 41, which is not
the stored lock 42 of the opened record 5; every conclusion holds there. -/
theorem close_wrong_secret_reverts_witness :
    exEnv.keccakSecret 41 ≠ (exStOpened.loyaltyPayments 5).secretLock ∧
    (isRevert (closeNewLoyaltyPayment exEnv 5 41 true exStOpened) = true ∧
     runCloseNewLoyaltyPayment exEnv 5 41 true exStOpened = (exStOpened, none) ∧
     isRevert (closeCancelLoyaltyPayment exEnv 5 41 true exStOpened) = true ∧
     runCloseCancelLoyaltyPayment exEnv 5 41 true exStOpened =
       (exStOpened, none)) :=
  ⟨by decide, close_wrong_secret_reverts exEnv 5 41 true exStOpened (by decide)⟩

/-- C5: when the preconditions of `openNewLoyaltyPayment` hold — the record
is `INVALID`, the signature recovers to the payer, and the payer's point
balance covers `paidPoint + feePoint` — the call commits with the record
`OPENED_PAYMENT`, the holding account's points up by exactly
`paidPoint + feePoint`, the payer's points down by exactly the same amount,
and the payer's nonce up by exactly 1.  (The payer is distinct from the
holding account: that account is the zero address, to which no ECDSA
signature can recover.) -/
theorem openPayment_postconditions
    (env : Env) (now : Nat) (data : LoyaltyPaymentInputData) (st : ChainState)
    (hstatus : (st.loyaltyPayments data.paymentId).status =
      LoyaltyPaymentStatus.INVALID)
    (hsig : env.recover (env.hashOpen data.paymentId data.purchaseId data.amount
      data.currency data.shopId data.account env.chainId (st.nonce data.account))
      data.signature = data.account)
    (hbal : env.convertCurrencyToPoint data.amount data.currency +
      env.convertCurrencyToPoint (zeroGWEI (data.amount * env.paymentFee / 10000))
        data.currency ≤ st.pointBalance data.account)
    (hacct : data.account ≠ env.temporaryAddress) :
    isOkAnd (openNewLoyaltyPayment env now data st) (fun st2 _ =>
      (st2.loyaltyPayments data.paymentId).status =
        LoyaltyPaymentStatus.OPENED_PAYMENT ∧
      st2.pointBalance env.temporaryAddress =
        st.pointBalance env.temporaryAddress +
          (env.convertCurrencyToPoint data.amount data.currency +
            env.convertCurrencyToPoint
              (zeroGWEI (data.amount * env.paymentFee / 10000)) data.currency) ∧
      st2.pointBalance data.account +
          (env.convertCurrencyToPoint data.amount data.currency +
            env.convertCurrencyToPoint
              (zeroGWEI (data.amount * env.paymentFee / 10000)) data.currency) =
        st.pointBalance data.account ∧
      st2.nonce data.account = st.nonce data.account + 1) := by
  unfold openNewLoyaltyPayment openNewLoyaltyPaymentPoint subPointBalance
  split
  · rename_i hbad
    exact absurd hstatus (by simpa using hbad)
  dsimp only
  split
  · rename_i hbad
    exact absurd hsig (by simpa using hbad)
  have hpb : (increaseNonce data.account st).pointBalance = st.pointBalance := rfl
  rw [if_neg (by rw [hpb]; omega)]
  rw [if_pos (by rw [hpb]; omega)]
  simp only [isOkAnd, increaseNonce, addPointBalance, setPayment]
  refine ⟨by simp, ?_, ?_, by simp⟩
  · simp [Function.update_same, Function.update_noteq (Ne.symm hacct)]
  · simp only [Function.update_same,
      Function.update_noteq hacct, Function.update_noteq (Ne.symm hacct)]
    omega

/-- Witness for C5 at a concrete input: payer 10 with 1000 points opens
payment 5 for 100 units at a 1:1 rate with zero fee; afterwards the record
is `OPENED_PAYMENT`, holding holds 100, the payer 900, and the nonce is 1. -/
theorem openPayment_postconditions_witness :
    ((exSt.loyaltyPayments exData.paymentId).status =
        LoyaltyPaymentStatus.INVALID ∧
      exData.account ≠ exEnv.temporaryAddress) ∧
    isOkAnd (openNewLoyaltyPayment exEnv 99 exData exSt) (fun st2 _ =>
      (st2.loyaltyPayments exData.paymentId).status =
        LoyaltyPaymentStatus.OPENED_PAYMENT ∧
      st2.pointBalance exEnv.temporaryAddress =
        exSt.pointBalance exEnv.temporaryAddress +
          (exEnv.convertCurrencyToPoint exData.amount exData.currency +
            exEnv.convertCurrencyToPoint
              (zeroGWEI (exData.amount * exEnv.paymentFee / 10000))
              exData.currency) ∧
      st2.pointBalance exData.account +
          (exEnv.convertCurrencyToPoint exData.amount exData.currency +
            exEnv.convertCurrencyToPoint
              (zeroGWEI (exData.amount * exEnv.paymentFee / 10000))
              exData.currency) =
        exSt.pointBalance exData.account ∧
      st2.nonce exData.account = exSt.nonce exData.account + 1) :=
  ⟨⟨by decide, by decide⟩,
    openPayment_postconditions exEnv 99 exData exSt (by decide) (by decide)
      (by decide) (by decide)⟩

/-- C3: settling with `closeNewLoyaltyPayment (confirm = true)` on an opened
record with the correct secret while the system account's token balance is
below `feeToken` skips the fee-distribution sub-step without error: the call
still commits, no token balance changes at all, the escrowed
`paidPoint + feePoint` is still debited from holding, the usage of an active
shop is still recorded, and the status becomes `CLOSED_PAYMENT`. -/
theorem closePayment_fee_shortfall_skipped
    (env : Env) (paymentId secret : Nat) (st : ChainState)
    (hstatus : (st.loyaltyPayments paymentId).status =
      LoyaltyPaymentStatus.OPENED_PAYMENT)
    (hsec : (st.loyaltyPayments paymentId).secretLock = env.keccakSecret secret)
    (hshort : st.tokenBalance env.systemAccount <
      (st.loyaltyPayments paymentId).feeToken)
    (hheld : (st.loyaltyPayments paymentId).paidPoint +
      (st.loyaltyPayments paymentId).feePoint ≤
      st.pointBalance env.temporaryAddress)
    (hshop : (env.shopOf (st.loyaltyPayments paymentId).shopId).status =
      ShopStatus.ACTIVE) :
    isOkAnd (closeNewLoyaltyPayment env paymentId secret true st) (fun st2 _ =>
      (st2.loyaltyPayments paymentId).status =
        LoyaltyPaymentStatus.CLOSED_PAYMENT ∧
      st2.tokenBalance = st.tokenBalance ∧
      st2.pointBalance env.temporaryAddress +
        ((st.loyaltyPayments paymentId).paidPoint +
          (st.loyaltyPayments paymentId).feePoint) =
        st.pointBalance env.temporaryAddress ∧
      st2.usedAmount (st.loyaltyPayments paymentId).shopId =
        st.usedAmount (st.loyaltyPayments paymentId).shopId +
          (env.convertCurrency (st.loyaltyPayments paymentId).paidValue
            (st.loyaltyPayments paymentId).currency
            (env.shopOf (st.loyaltyPayments paymentId).shopId).currency : Int) ∧
      (st2.loyaltyPayments paymentId).usedValueShop =
        env.convertCurrency (st.loyaltyPayments paymentId).paidValue
          (st.loyaltyPayments paymentId).currency
          (env.shopOf (st.loyaltyPayments paymentId).shopId).currency) := by
  unfold closeNewLoyaltyPayment subPointBalance
  rw [if_neg (by simp [hstatus])]
  rw [if_neg (by simp [hsec])]
  dsimp only
  rw [if_pos rfl]
  rw [if_pos hheld]
  dsimp only
  have hfee : ¬ ((st.loyaltyPayments paymentId).feeToken ≤
      st.tokenBalance env.systemAccount) := by omega
  simp only [if_neg hfee, if_pos hshop]
  simp only [isOkAnd, addUsedAmount, setPayment, addPointBalance]
  refine ⟨by simp, trivial, ?_, ?_, by simp⟩
  · simp only [Function.update_same]
    omega
  · simp [Function.update_same]

/-- Witness for C3 at a concrete input: the opened record 5 (`feeToken = 1`)
is settled while the system account holds 0 tokens; the settlement commits,
token balances are untouched, holding drops from 101 to 0, shop 3's
used-amount ledger gains the converted 100, and the record closes. -/
theorem closePayment_fee_shortfall_skipped_witness :
    (exStOpened.tokenBalance exEnv.systemAccount <
        (exStOpened.loyaltyPayments 5).feeToken) ∧
    isOkAnd (closeNewLoyaltyPayment exEnv 5 42 true exStOpened) (fun st2 _ =>
      (st2.loyaltyPayments 5).status = LoyaltyPaymentStatus.CLOSED_PAYMENT ∧
      st2.tokenBalance = exStOpened.tokenBalance ∧
      st2.pointBalance exEnv.temporaryAddress +
        ((exStOpened.loyaltyPayments 5).paidPoint +
          (exStOpened.loyaltyPayments 5).feePoint) =
        exStOpened.pointBalance exEnv.temporaryAddress ∧
      st2.usedAmount (exStOpened.loyaltyPayments 5).shopId =
        exStOpened.usedAmount (exStOpened.loyaltyPayments 5).shopId +
          (exEnv.convertCurrency (exStOpened.loyaltyPayments 5).paidValue
            (exStOpened.loyaltyPayments 5).currency
            (exEnv.shopOf (exStOpened.loyaltyPayments 5).shopId).currency : Int) ∧
      (st2.loyaltyPayments 5).usedValueShop =
        exEnv.convertCurrency (exStOpened.loyaltyPayments 5).paidValue
          (exStOpened.loyaltyPayments 5).currency
          (exEnv.shopOf (exStOpened.loyaltyPayments 5).shopId).currency) :=
  ⟨by decide,
    closePayment_fee_shortfall_skipped exEnv 5 42 exStOpened (by decide)
      (by decide) (by decide) (by decide) (by decide)⟩

/-- C4: in `openCancelLoyaltyPayment` (window open, shop or delegate
authorized), a fee-collection token balance below the record's `feeToken` is
fatal: the call reverts with "1513" and, by revert semantics, mutates
nothing.  Otherwise `feeToken` moves from the fee-collection account into
holding, holding is credited `paidPoint + feePoint` points, the new secret
lock is stored, and the status becomes `OPENED_CANCEL`. -/
theorem openCancel_fee_shortfall_fatal
    (env : Env) (now paymentId secretLock signature : Nat) (st : ChainState)
    (hnow : now ≤ (st.loyaltyPayments paymentId).timestamp + 86400 * 7)
    (hauth : (openCancelPass1 env paymentId signature st ||
      openCancelPass2 env paymentId signature st) = true) :
    (st.tokenBalance env.paymentFeeAccount <
        (st.loyaltyPayments paymentId).feeToken →
      openCancelLoyaltyPayment env now paymentId secretLock signature st =
        Except.error "1513" ∧
      runOpenCancelLoyaltyPayment env now paymentId secretLock signature st =
        (st, none)) ∧
    ((st.loyaltyPayments paymentId).feeToken ≤
        st.tokenBalance env.paymentFeeAccount →
      env.paymentFeeAccount ≠ env.temporaryAddress →
      isOkAnd (openCancelLoyaltyPayment env now paymentId secretLock signature st)
        (fun st2 _ =>
          st2.tokenBalance env.paymentFeeAccount +
              (st.loyaltyPayments paymentId).feeToken =
            st.tokenBalance env.paymentFeeAccount ∧
          st2.tokenBalance env.temporaryAddress =
            st.tokenBalance env.temporaryAddress +
              (st.loyaltyPayments paymentId).feeToken ∧
          st2.pointBalance env.temporaryAddress =
            st.pointBalance env.temporaryAddress +
              ((st.loyaltyPayments paymentId).paidPoint +
                (st.loyaltyPayments paymentId).feePoint) ∧
          (st2.loyaltyPayments paymentId).secretLock = secretLock ∧
          (st2.loyaltyPayments paymentId).status =
            LoyaltyPaymentStatus.OPENED_CANCEL)) := by
  have htb : (increaseNonce
      (env.shopOf (st.loyaltyPayments paymentId).shopId).account st).tokenBalance =
      st.tokenBalance := rfl
  refine ⟨fun hlt => ?_, fun hge hne => ?_⟩
  · have h513 : openCancelLoyaltyPayment env now paymentId secretLock signature st =
        Except.error "1513" := by
      unfold openCancelLoyaltyPayment
      simp only [statusGuard_eq_true, if_true]
      rw [if_pos hnow]
      try dsimp only
      rw [if_pos hauth]
      rw [if_neg (by rw [htb]; omega)]
    exact ⟨h513, by unfold runOpenCancelLoyaltyPayment; rw [h513]⟩
  · unfold openCancelLoyaltyPayment transferToken subTokenBalance
    simp only [statusGuard_eq_true, if_true]
    rw [if_pos hnow]
    try dsimp only
    rw [if_pos hauth]
    rw [if_pos (by rw [htb]; omega)]
    rw [if_pos (by rw [htb]; omega)]
    try dsimp only
    simp only [isOkAnd, increaseNonce, addTokenBalance, addPointBalance, setPayment]
    refine ⟨?_, ?_, by simp [Function.update_same], by simp, by simp⟩
    · simp only [Function.update_same, Function.update_noteq hne,
        Function.update_noteq (Ne.symm hne)]
      omega
    · simp only [Function.update_same, Function.update_noteq hne,
        Function.update_noteq (Ne.symm hne)]

/-- Witness for C4 at concrete inputs: the abort clause fires on a state
whose fee-collection account holds 0 tokens against `feeToken = 1`, and the
success clause on the opened record 5 with the fee-collection account
holding 5 tokens; all conclusions hold there. -/
theorem openCancel_fee_shortfall_fatal_witness :
    (exStCancelOpened.tokenBalance exEnv.paymentFeeAccount <
        (exStCancelOpened.loyaltyPayments 5).feeToken ∧
      openCancelLoyaltyPayment exEnv 3 5 77 0 exStCancelOpened =
        Except.error "1513" ∧
      runOpenCancelLoyaltyPayment exEnv 3 5 77 0 exStCancelOpened =
        (exStCancelOpened, none)) ∧
    ((exStOpened.loyaltyPayments 5).feeToken ≤
        exStOpened.tokenBalance exEnv.paymentFeeAccount ∧
      isOkAnd (openCancelLoyaltyPayment exEnv 3 5 77 0 exStOpened)
        (fun st2 _ =>
          st2.tokenBalance exEnv.paymentFeeAccount +
              (exStOpened.loyaltyPayments 5).feeToken =
            exStOpened.tokenBalance exEnv.paymentFeeAccount ∧
          st2.tokenBalance exEnv.temporaryAddress =
            exStOpened.tokenBalance exEnv.temporaryAddress +
              (exStOpened.loyaltyPayments 5).feeToken ∧
          st2.pointBalance exEnv.temporaryAddress =
            exStOpened.pointBalance exEnv.temporaryAddress +
              ((exStOpened.loyaltyPayments 5).paidPoint +
                (exStOpened.loyaltyPayments 5).feePoint) ∧
          (st2.loyaltyPayments 5).secretLock = 77 ∧
          (st2.loyaltyPayments 5).status =
            LoyaltyPaymentStatus.OPENED_CANCEL)) :=
  ⟨⟨by decide,
    (openCancel_fee_shortfall_fatal exEnv 3 5 77 0 exStCancelOpened (by decide)
      (by decide)).1 (by decide)⟩,
   ⟨by decide,
    (openCancel_fee_shortfall_fatal exEnv 3 5 77 0 exStOpened (by decide)
      (by decide)).2 (by decide) (by decide)⟩⟩

/-- C10: `closeCancelLoyaltyPayment (confirm = false)` on an opened
cancellation with the correct secret never touches the payer's point balance
or the shop's used-amount ledger: it only moves `feeToken` from holding to
the fee-collection account, debits holding's points by
`paidPoint + feePoint`, and sets `FAILED_CANCEL`; the balance in the emitted
notification equals the payer's balance before the call. -/
theorem closeCancel_refund_frame
    (env : Env) (paymentId secret : Nat) (st : ChainState)
    (hstatus : (st.loyaltyPayments paymentId).status =
      LoyaltyPaymentStatus.OPENED_CANCEL)
    (hsec : (st.loyaltyPayments paymentId).secretLock = env.keccakSecret secret)
    (htok : (st.loyaltyPayments paymentId).feeToken ≤
      st.tokenBalance env.temporaryAddress)
    (hpts : (st.loyaltyPayments paymentId).paidPoint +
      (st.loyaltyPayments paymentId).feePoint ≤
      st.pointBalance env.temporaryAddress)
    (hacc : (st.loyaltyPayments paymentId).account ≠ env.temporaryAddress)
    (hne : env.temporaryAddress ≠ env.paymentFeeAccount) :
    isOkAnd (closeCancelLoyaltyPayment env paymentId secret false st)
      (fun st2 bal =>
        st2.pointBalance (st.loyaltyPayments paymentId).account =
          st.pointBalance (st.loyaltyPayments paymentId).account ∧
        st2.usedAmount = st.usedAmount ∧
        st2.tokenBalance env.temporaryAddress +
            (st.loyaltyPayments paymentId).feeToken =
          st.tokenBalance env.temporaryAddress ∧
        st2.tokenBalance env.paymentFeeAccount =
          st.tokenBalance env.paymentFeeAccount +
            (st.loyaltyPayments paymentId).feeToken ∧
        st2.pointBalance env.temporaryAddress +
            ((st.loyaltyPayments paymentId).paidPoint +
              (st.loyaltyPayments paymentId).feePoint) =
          st.pointBalance env.temporaryAddress ∧
        (st2.loyaltyPayments paymentId).status =
          LoyaltyPaymentStatus.FAILED_CANCEL ∧
        bal = st.pointBalance (st.loyaltyPayments paymentId).account) := by
  unfold closeCancelLoyaltyPayment transferToken subTokenBalance
    addTokenBalance subPointBalance
  rw [if_neg (by simp [hstatus])]
  rw [if_neg (by simp [hsec])]
  rw [if_neg Bool.false_ne_true]
  rw [if_pos htok]
  try dsimp only
  rw [if_pos hpts]
  try dsimp only
  simp only [isOkAnd, setPayment]
  refine ⟨?_, trivial, ?_, ?_, ?_, by simp, ?_⟩
  · simp [Function.update_noteq hacc]
  · simp only [Function.update_same, Function.update_noteq hne]
    omega
  · simp only [Function.update_same, Function.update_noteq (Ne.symm hne)]
  · simp only [Function.update_same]
    omega
  · simp [Function.update_noteq hacc]

/-- Witness for C10 at a concrete input: reversing the opened cancellation 5
with the correct secret 43 leaves payer 10 at 899 points and shop 3's ledger
at 100, moves the 1 escrowed token from holding to fee collection, burns the
101 escrowed points from holding, and fails the cancellation. -/
theorem closeCancel_refund_frame_witness :
    ((exStCancelOpened.loyaltyPayments 5).status =
        LoyaltyPaymentStatus.OPENED_CANCEL ∧
      (exStCancelOpened.loyaltyPayments 5).account ≠
        exEnv.temporaryAddress) ∧
    isOkAnd (closeCancelLoyaltyPayment exEnv 5 43 false exStCancelOpened)
      (fun st2 bal =>
        st2.pointBalance (exStCancelOpened.loyaltyPayments 5).account =
          exStCancelOpened.pointBalance
            (exStCancelOpened.loyaltyPayments 5).account ∧
        st2.usedAmount = exStCancelOpened.usedAmount ∧
        st2.tokenBalance exEnv.temporaryAddress +
            (exStCancelOpened.loyaltyPayments 5).feeToken =
          exStCancelOpened.tokenBalance exEnv.temporaryAddress ∧
        st2.tokenBalance exEnv.paymentFeeAccount =
          exStCancelOpened.tokenBalance exEnv.paymentFeeAccount +
            (exStCancelOpened.loyaltyPayments 5).feeToken ∧
        st2.pointBalance exEnv.temporaryAddress +
            ((exStCancelOpened.loyaltyPayments 5).paidPoint +
              (exStCancelOpened.loyaltyPayments 5).feePoint) =
          exStCancelOpened.pointBalance exEnv.temporaryAddress ∧
        (st2.loyaltyPayments 5).status = LoyaltyPaymentStatus.FAILED_CANCEL ∧
        bal = exStCancelOpened.pointBalance
          (exStCancelOpened.loyaltyPayments 5).account) :=
  ⟨⟨by decide, by decide⟩,
    closeCancel_refund_frame exEnv 5 43 exStCancelOpened (by decide) (by decide)
      (by decide) (by decide) (by decide) (by decide)⟩

/-- C7: for every successfully opened payment, closing it with
`confirm = false` and the correct secret commits and restores the payer's
point balance to exactly its value before the open (the refund credits the
payer the `paidPoint + feePoint` the open debited), setting
`FAILED_PAYMENT`. -/
theorem open_close_refund_roundtrip
    (env : Env) (now : Nat) (data : LoyaltyPaymentInputData) (secret : Nat)
    (st st1 : ChainState) (b1 : Nat)
    (hopen : openNewLoyaltyPayment env now data st = Except.ok (st1, b1))
    (hsec : env.keccakSecret secret = data.secretLock) :
    isOkAnd (closeNewLoyaltyPayment env data.paymentId secret false st1)
      (fun st2 _ =>
        st2.pointBalance data.account = st.pointBalance data.account ∧
        (st2.loyaltyPayments data.paymentId).status =
          LoyaltyPaymentStatus.FAILED_PAYMENT) := by
  unfold openNewLoyaltyPayment openNewLoyaltyPaymentPoint subPointBalance at hopen
  split at hopen
  · simp at hopen
  try dsimp only at hopen
  split at hopen
  · simp at hopen
  split at hopen
  · simp at hopen
  rename_i hnlt
  split at hopen
  · simp at hopen
  next stm heq =>
    rw [if_pos (Nat.le_of_not_lt hnlt)] at heq
    rw [Except.ok.injEq] at heq
    subst heq
    rw [Except.ok.injEq, Prod.mk.injEq] at hopen
    obtain ⟨h1, h2⟩ := hopen
    subst h1
    unfold closeNewLoyaltyPayment subPointBalance
    rw [if_neg (by simp [setPayment, Function.update_same])]
    rw [if_neg (by simp [setPayment, Function.update_same, hsec])]
    rw [if_neg Bool.false_ne_true]
    rw [if_pos (by
      simp only [setPayment, addPointBalance, Function.update_same]
      exact Nat.le_add_left _ _)]
    try dsimp only
    have hnlt' : env.convertCurrencyToPoint data.amount data.currency +
        env.convertCurrencyToPoint
          (zeroGWEI (data.amount * env.paymentFee / 10000)) data.currency ≤
        st.pointBalance data.account := by
      simpa [increaseNonce] using Nat.le_of_not_lt hnlt
    simp only [isOkAnd, setPayment, addPointBalance, increaseNonce,
      Function.update_same]
    refine ⟨?_, by simp [Function.update_apply]⟩
    simp only [Function.update_apply]
    by_cases hat : data.account = env.temporaryAddress
    · simp only [hat] at hnlt' ⊢
      simp
      omega
    · simp [hat, Ne.symm hat]
      omega

/-- Witness for C7 at a concrete input: opening payment 5 for payer 10
(balance 1000) and refund-closing it with the correct secret 42 commits and
returns the payer to exactly 1000 points. -/
theorem open_close_refund_roundtrip_witness :
    openNewLoyaltyPayment exEnv 99 exData exSt =
      Except.ok (exStAfterOpen, 900) ∧
    isOkAnd (closeNewLoyaltyPayment exEnv exData.paymentId 42 false exStAfterOpen)
      (fun st2 _ =>
        st2.pointBalance exData.account = exSt.pointBalance exData.account ∧
        (st2.loyaltyPayments exData.paymentId).status =
          LoyaltyPaymentStatus.FAILED_PAYMENT) :=
  ⟨exStAfterOpen_spec,
    open_close_refund_roundtrip exEnv 99 exData 42 exSt exStAfterOpen 900
      exStAfterOpen_spec (by decide)⟩

/-- Counterexample to C9: in `delegEnv`, shop (account 7) has delegate 8, and
signature 3 verifies only as the delegate (`pass1` false, `pass2` true); the
call commits, yet the delegate's nonce stays 0 while the shop account's
nonce — whose signature did NOT verify — is the one incremented, refuting
"the nonce of whichever account's signature actually verified is the one
incremented". -/
theorem openCancel_nonce_counterexample :
    openCancelPass1 delegEnv 5 3 exSt = false ∧
    openCancelPass2 delegEnv 5 3 exSt = true ∧
    exSt.nonce 7 = 0 ∧
    exSt.nonce 8 = 0 ∧
    isRevert (openCancelLoyaltyPayment delegEnv 0 5 77 3 exSt) = false ∧
    nonceAfter (openCancelLoyaltyPayment delegEnv 0 5 77 3 exSt) 8 99 = 0 ∧
    nonceAfter (openCancelLoyaltyPayment delegEnv 0 5 77 3 exSt) 7 99 = 1 := by
  decide

/-- C9 as amended: authorization indeed accepts either the shop's primary
signature or a registered delegate's signature, each over its own canonical
hash carrying that signer's current nonce; but every committed call
increments the nonce of the shop's PRIMARY account, exactly once, regardless
of which signature verified — every other account's nonce (in particular a
distinct delegate's) is unchanged. -/
theorem openCancel_nonce_shop_account
    (env : Env) (now paymentId secretLock signature : Nat)
    (st st2 : ChainState) (b : Nat)
    (hok : openCancelLoyaltyPayment env now paymentId secretLock signature st =
      Except.ok (st2, b)) :
    (openCancelPass1 env paymentId signature st ||
      openCancelPass2 env paymentId signature st) = true ∧
    st2.nonce (env.shopOf (st.loyaltyPayments paymentId).shopId).account =
      st.nonce (env.shopOf (st.loyaltyPayments paymentId).shopId).account + 1 ∧
    (∀ a, a ≠ (env.shopOf (st.loyaltyPayments paymentId).shopId).account →
      st2.nonce a = st.nonce a) := by
  unfold openCancelLoyaltyPayment transferToken subTokenBalance at hok
  repeat' (first | split at hok | dsimp only at hok)
  all_goals cases hok
  rename_i st1x heq
  dsimp only at heq
  cases heq
  refine ⟨by assumption, ?_, ?_⟩
  · simp [setPayment, addPointBalance, addTokenBalance, increaseNonce,
      Function.update_same]
  · intro a ha
    simp [setPayment, addPointBalance, addTokenBalance, increaseNonce,
      Function.update_noteq ha]

/-- Witness for the amended C9 at a concrete input: applying the theorem to
the committed delegate-authorized call of `delegEnv` shows the either-or
authorization held, the shop account's (7) nonce rose from 0 to 1, and the
delegate's (8) did not move. -/
theorem openCancel_nonce_shop_account_witness :
    (openCancelPass1 delegEnv 5 3 exSt ||
      openCancelPass2 delegEnv 5 3 exSt) = true ∧
    (stateAfter (openCancelLoyaltyPayment delegEnv 0 5 77 3 exSt) exSt).nonce
        (delegEnv.shopOf (exSt.loyaltyPayments 5).shopId).account =
      exSt.nonce (delegEnv.shopOf (exSt.loyaltyPayments 5).shopId).account + 1 ∧
    (stateAfter (openCancelLoyaltyPayment delegEnv 0 5 77 3 exSt) exSt).nonce 8 =
      exSt.nonce 8 :=
  ⟨(openCancel_nonce_shop_account delegEnv 0 5 77 3 exSt
      (stateAfter (openCancelLoyaltyPayment delegEnv 0 5 77 3 exSt) exSt)
      (balEmitted (openCancelLoyaltyPayment delegEnv 0 5 77 3 exSt) 0) rfl).1,
   (openCancel_nonce_shop_account delegEnv 0 5 77 3 exSt
      (stateAfter (openCancelLoyaltyPayment delegEnv 0 5 77 3 exSt) exSt)
      (balEmitted (openCancelLoyaltyPayment delegEnv 0 5 77 3 exSt) 0) rfl).2.1,
   (openCancel_nonce_shop_account delegEnv 0 5 77 3 exSt
      (stateAfter (openCancelLoyaltyPayment delegEnv 0 5 77 3 exSt) exSt)
      (balEmitted (openCancelLoyaltyPayment delegEnv 0 5 77 3 exSt) 0) rfl).2.2
     8 (by decide)⟩

/-- A committed open leaves the payer-plus-holding point pool unchanged:
the debit of the payer is matched by the credit of holding. -/
theorem open_pool_preserved
    (env : Env) (now : Nat) (data : LoyaltyPaymentInputData)
    (st st2 : ChainState) (b : Nat)
    (hne : data.account ≠ env.temporaryAddress)
    (hok : openNewLoyaltyPayment env now data st = Except.ok (st2, b)) :
    pointPool env data.account st2 = pointPool env data.account st := by
  unfold openNewLoyaltyPayment openNewLoyaltyPaymentPoint at hok
  repeat' (first | split at hok | dsimp only at hok)
  all_goals cases hok
  obtain ⟨hle, rfl⟩ := subPoint_ok_inv _ _ _ _ (by assumption)
  simp only [increaseNonce] at hle
  unfold pointPool
  simp [setPayment, addPointBalance, increaseNonce, Function.update_apply,
    hne, Ne.symm hne]
  all_goals omega

/-- A committed settle (`confirm = true`) burns the escrowed
`paidPoint + feePoint` from the payer-plus-holding point pool. -/
theorem closeNew_true_pool
    (env : Env) (paymentId secret : Nat) (st st2 : ChainState) (b : Nat)
    (hne : (st.loyaltyPayments paymentId).account ≠ env.temporaryAddress)
    (hok : closeNewLoyaltyPayment env paymentId secret true st =
      Except.ok (st2, b)) :
    pointPool env (st.loyaltyPayments paymentId).account st2 +
      ((st.loyaltyPayments paymentId).paidPoint +
        (st.loyaltyPayments paymentId).feePoint) =
      pointPool env (st.loyaltyPayments paymentId).account st := by
  unfold closeNewLoyaltyPayment at hok
  repeat' (first | split at hok | dsimp only at hok)
  all_goals cases hok
  all_goals try (exact absurd rfl ‹¬ true = true›)
  all_goals obtain ⟨hle, rfl⟩ := subPoint_ok_inv _ _ _ _ (by assumption)
  all_goals unfold pointPool
  all_goals
    simp [setPayment, addUsedAmount, addPointBalance, addTokenBalance,
      increaseNonce, Function.update_apply, hne, Ne.symm hne]
  all_goals omega

/-- A committed refund (`confirm = false`) leaves the payer-plus-holding
point pool unchanged: holding's debit is matched by the payer's credit. -/
theorem closeNew_false_pool
    (env : Env) (paymentId secret : Nat) (st st2 : ChainState) (b : Nat)
    (hne : (st.loyaltyPayments paymentId).account ≠ env.temporaryAddress)
    (hok : closeNewLoyaltyPayment env paymentId secret false st =
      Except.ok (st2, b)) :
    pointPool env (st.loyaltyPayments paymentId).account st2 =
      pointPool env (st.loyaltyPayments paymentId).account st := by
  unfold closeNewLoyaltyPayment at hok
  repeat' (first | split at hok | dsimp only at hok)
  all_goals cases hok
  all_goals try (exact Bool.noConfusion ‹false = true›)
  all_goals obtain ⟨hle, rfl⟩ := subPoint_ok_inv _ _ _ _ (by assumption)
  all_goals unfold pointPool
  all_goals
    simp [setPayment, addPointBalance, increaseNonce, Function.update_apply,
      hne, Ne.symm hne]
  all_goals omega

/-- A committed open-cancel mints the escrowed `paidPoint + feePoint` into
the payer-plus-holding point pool (holding is re-credited with no matching
point debit anywhere). -/
theorem openCancel_pool_minted
    (env : Env) (now paymentId secretLock signature : Nat)
    (st st2 : ChainState) (b : Nat)
    (hne : (st.loyaltyPayments paymentId).account ≠ env.temporaryAddress)
    (hok : openCancelLoyaltyPayment env now paymentId secretLock signature st =
      Except.ok (st2, b)) :
    pointPool env (st.loyaltyPayments paymentId).account st2 =
      pointPool env (st.loyaltyPayments paymentId).account st +
        ((st.loyaltyPayments paymentId).paidPoint +
          (st.loyaltyPayments paymentId).feePoint) := by
  unfold openCancelLoyaltyPayment at hok
  repeat' (first | split at hok | dsimp only at hok)
  all_goals cases hok
  obtain ⟨hle, rfl⟩ := transferToken_ok_inv _ _ _ _ _ (by assumption)
  unfold pointPool
  simp [setPayment, addPointBalance, addTokenBalance, increaseNonce,
    Function.update_apply, hne, Ne.symm hne]
  all_goals omega

/-- A committed cancel-finalize (`confirm = true`) mints the escrowed
`paidPoint + feePoint` into the payer-plus-holding point pool (the payer is
credited while holding keeps its escrowed points). -/
theorem closeCancel_true_pool
    (env : Env) (paymentId secret : Nat) (st st2 : ChainState) (b : Nat)
    (hne : (st.loyaltyPayments paymentId).account ≠ env.temporaryAddress)
    (hok : closeCancelLoyaltyPayment env paymentId secret true st =
      Except.ok (st2, b)) :
    pointPool env (st.loyaltyPayments paymentId).account st2 =
      pointPool env (st.loyaltyPayments paymentId).account st +
        ((st.loyaltyPayments paymentId).paidPoint +
          (st.loyaltyPayments paymentId).feePoint) := by
  unfold closeCancelLoyaltyPayment at hok
  repeat' (first | split at hok | dsimp only at hok)
  all_goals cases hok
  all_goals try (exact absurd rfl ‹¬ true = true›)
  obtain ⟨hle, rfl⟩ := transferToken_ok_inv _ _ _ _ _ (by assumption)
  unfold pointPool
  simp [setPayment, subUsedAmount, addPointBalance, addTokenBalance,
    increaseNonce, Function.update_apply, hne, Ne.symm hne]
  all_goals omega

/-- A committed cancel-reverse (`confirm = false`) burns the escrowed
`paidPoint + feePoint` from the payer-plus-holding point pool. -/
theorem closeCancel_false_pool
    (env : Env) (paymentId secret : Nat) (st st2 : ChainState) (b : Nat)
    (hne : (st.loyaltyPayments paymentId).account ≠ env.temporaryAddress)
    (hok : closeCancelLoyaltyPayment env paymentId secret false st =
      Except.ok (st2, b)) :
    pointPool env (st.loyaltyPayments paymentId).account st2 +
      ((st.loyaltyPayments paymentId).paidPoint +
        (st.loyaltyPayments paymentId).feePoint) =
      pointPool env (st.loyaltyPayments paymentId).account st := by
  unfold closeCancelLoyaltyPayment at hok
  repeat' (first | split at hok | dsimp only at hok)
  all_goals cases hok
  all_goals try (exact Bool.noConfusion ‹false = true›)
  obtain ⟨hle1, rfl⟩ := transferToken_ok_inv _ _ _ _ _ (by assumption)
  obtain ⟨hle2, rfl⟩ := subPoint_ok_inv _ _ _ _ (by assumption)
  simp only [addTokenBalance] at hle2
  unfold pointPool
  simp [setPayment, addPointBalance, addTokenBalance, increaseNonce,
    Function.update_apply, hne, Ne.symm hne]
  all_goals omega

/-- Counterexample to C2: on the concrete opened payment 5
(`paidPoint = 100`, `feePoint = 1`), the settle `closeNewLoyaltyPayment
(confirm = true)` commits and the total point supply over payer (10),
holding (0), system (1), fee-collection (2) and shop (7) accounts drops from
1000 to 899 — the escrowed 101 points are destroyed, not moved, so the
escrowed amount is not conserved across every transition. -/
theorem escrow_conservation_counterexample :
    isRevert (closeNewLoyaltyPayment exEnv 5 42 true exStOpened) = false ∧
    exStOpened.pointBalance 10 + exStOpened.pointBalance 0 = 1000 ∧
    exStOpened.pointBalance 1 = 0 ∧
    exStOpened.pointBalance 2 = 0 ∧
    exStOpened.pointBalance 7 = 0 ∧
    pointAfter (closeNewLoyaltyPayment exEnv 5 42 true exStOpened) 10 0 +
      pointAfter (closeNewLoyaltyPayment exEnv 5 42 true exStOpened) 0 0 = 899 ∧
    pointAfter (closeNewLoyaltyPayment exEnv 5 42 true exStOpened) 1 9 = 0 ∧
    pointAfter (closeNewLoyaltyPayment exEnv 5 42 true exStOpened) 2 9 = 0 ∧
    pointAfter (closeNewLoyaltyPayment exEnv 5 42 true exStOpened) 7 9 = 0 := by
  decide

/-- C2 as amended: the escrowed `paidPoint + feePoint` is conserved (moved
1:1 between payer and holding) only by `openPayment` and the refund
`closePayment (confirm = false)`; the settle `closePayment (confirm = true)`
burns it from the payer-plus-holding point pool, `openCancel` mints it back
into the pool, `closeCancel (confirm = true)` mints it once more to the
payer, and `closeCancel (confirm = false)` burns it again. -/
theorem escrow_pool_deltas :
    (∀ (env : Env) (now : Nat) (data : LoyaltyPaymentInputData)
      (st st2 : ChainState) (b : Nat),
      data.account ≠ env.temporaryAddress →
      openNewLoyaltyPayment env now data st = Except.ok (st2, b) →
      pointPool env data.account st2 = pointPool env data.account st) ∧
    (∀ (env : Env) (paymentId secret : Nat) (st st2 : ChainState) (b : Nat),
      (st.loyaltyPayments paymentId).account ≠ env.temporaryAddress →
      closeNewLoyaltyPayment env paymentId secret true st =
        Except.ok (st2, b) →
      pointPool env (st.loyaltyPayments paymentId).account st2 +
        ((st.loyaltyPayments paymentId).paidPoint +
          (st.loyaltyPayments paymentId).feePoint) =
        pointPool env (st.loyaltyPayments paymentId).account st) ∧
    (∀ (env : Env) (paymentId secret : Nat) (st st2 : ChainState) (b : Nat),
      (st.loyaltyPayments paymentId).account ≠ env.temporaryAddress →
      closeNewLoyaltyPayment env paymentId secret false st =
        Except.ok (st2, b) →
      pointPool env (st.loyaltyPayments paymentId).account st2 =
        pointPool env (st.loyaltyPayments paymentId).account st) ∧
    (∀ (env : Env) (now paymentId secretLock signature : Nat)
      (st st2 : ChainState) (b : Nat),
      (st.loyaltyPayments paymentId).account ≠ env.temporaryAddress →
      openCancelLoyaltyPayment env now paymentId secretLock signature st =
        Except.ok (st2, b) →
      pointPool env (st.loyaltyPayments paymentId).account st2 =
        pointPool env (st.loyaltyPayments paymentId).account st +
          ((st.loyaltyPayments paymentId).paidPoint +
            (st.loyaltyPayments paymentId).feePoint)) ∧
    (∀ (env : Env) (paymentId secret : Nat) (st st2 : ChainState) (b : Nat),
      (st.loyaltyPayments paymentId).account ≠ env.temporaryAddress →
      closeCancelLoyaltyPayment env paymentId secret true st =
        Except.ok (st2, b) →
      pointPool env (st.loyaltyPayments paymentId).account st2 =
        pointPool env (st.loyaltyPayments paymentId).account st +
          ((st.loyaltyPayments paymentId).paidPoint +
            (st.loyaltyPayments paymentId).feePoint)) ∧
    (∀ (env : Env) (paymentId secret : Nat) (st st2 : ChainState) (b : Nat),
      (st.loyaltyPayments paymentId).account ≠ env.temporaryAddress →
      closeCancelLoyaltyPayment env paymentId secret false st =
        Except.ok (st2, b) →
      pointPool env (st.loyaltyPayments paymentId).account st2 +
        ((st.loyaltyPayments paymentId).paidPoint +
          (st.loyaltyPayments paymentId).feePoint) =
        pointPool env (st.loyaltyPayments paymentId).account st) :=
  ⟨fun env now data st st2 b hne hok =>
      open_pool_preserved env now data st st2 b hne hok,
   fun env paymentId secret st st2 b hne hok =>
      closeNew_true_pool env paymentId secret st st2 b hne hok,
   fun env paymentId secret st st2 b hne hok =>
      closeNew_false_pool env paymentId secret st st2 b hne hok,
   fun env now paymentId secretLock signature st st2 b hne hok =>
      openCancel_pool_minted env now paymentId secretLock signature st st2 b
        hne hok,
   fun env paymentId secret st st2 b hne hok =>
      closeCancel_true_pool env paymentId secret st st2 b hne hok,
   fun env paymentId secret st st2 b hne hok =>
      closeCancel_false_pool env paymentId secret st st2 b hne hok⟩

/-- Witness for the amended C2, one committed concrete run per transition:
the open and the refund preserve the payer-plus-holding pool, the settle
burns the escrow, and the cancel path mints it twice and burns it once. -/
theorem escrow_pool_deltas_witness :
    (pointPool exEnv exData.account
        (stateAfter (openNewLoyaltyPayment exEnv 99 exData exSt) exSt) =
      pointPool exEnv exData.account exSt) ∧
    (pointPool exEnv (exStOpened.loyaltyPayments 5).account
        (stateAfter (closeNewLoyaltyPayment exEnv 5 42 true exStOpened)
          exStOpened) +
        ((exStOpened.loyaltyPayments 5).paidPoint +
          (exStOpened.loyaltyPayments 5).feePoint) =
      pointPool exEnv (exStOpened.loyaltyPayments 5).account exStOpened) ∧
    (pointPool exEnv (exStOpened.loyaltyPayments 5).account
        (stateAfter (closeNewLoyaltyPayment exEnv 5 42 false exStOpened)
          exStOpened) =
      pointPool exEnv (exStOpened.loyaltyPayments 5).account exStOpened) ∧
    (pointPool exEnv (exStOpened.loyaltyPayments 5).account
        (stateAfter (openCancelLoyaltyPayment exEnv 3 5 77 0 exStOpened)
          exStOpened) =
      pointPool exEnv (exStOpened.loyaltyPayments 5).account exStOpened +
        ((exStOpened.loyaltyPayments 5).paidPoint +
          (exStOpened.loyaltyPayments 5).feePoint)) ∧
    (pointPool exEnv (exStCancelOpened.loyaltyPayments 5).account
        (stateAfter (closeCancelLoyaltyPayment exEnv 5 43 true exStCancelOpened)
          exStCancelOpened) =
      pointPool exEnv (exStCancelOpened.loyaltyPayments 5).account
          exStCancelOpened +
        ((exStCancelOpened.loyaltyPayments 5).paidPoint +
          (exStCancelOpened.loyaltyPayments 5).feePoint)) ∧
    (pointPool exEnv (exStCancelOpened.loyaltyPayments 5).account
        (stateAfter
          (closeCancelLoyaltyPayment exEnv 5 43 false exStCancelOpened)
          exStCancelOpened) +
        ((exStCancelOpened.loyaltyPayments 5).paidPoint +
          (exStCancelOpened.loyaltyPayments 5).feePoint) =
      pointPool exEnv (exStCancelOpened.loyaltyPayments 5).account
        exStCancelOpened) :=
  ⟨escrow_pool_deltas.1 exEnv 99 exData exSt
      (stateAfter (openNewLoyaltyPayment exEnv 99 exData exSt) exSt)
      (balEmitted (openNewLoyaltyPayment exEnv 99 exData exSt) 0)
      (by decide) rfl,
   escrow_pool_deltas.2.1 exEnv 5 42 exStOpened
      (stateAfter (closeNewLoyaltyPayment exEnv 5 42 true exStOpened)
        exStOpened)
      (balEmitted (closeNewLoyaltyPayment exEnv 5 42 true exStOpened) 0)
      (by decide) rfl,
   escrow_pool_deltas.2.2.1 exEnv 5 42 exStOpened
      (stateAfter (closeNewLoyaltyPayment exEnv 5 42 false exStOpened)
        exStOpened)
      (balEmitted (closeNewLoyaltyPayment exEnv 5 42 false exStOpened) 0)
      (by decide) rfl,
   escrow_pool_deltas.2.2.2.1 exEnv 3 5 77 0 exStOpened
      (stateAfter (openCancelLoyaltyPayment exEnv 3 5 77 0 exStOpened)
        exStOpened)
      (balEmitted (openCancelLoyaltyPayment exEnv 3 5 77 0 exStOpened) 0)
      (by decide) rfl,
   escrow_pool_deltas.2.2.2.2.1 exEnv 5 43 exStCancelOpened
      (stateAfter (closeCancelLoyaltyPayment exEnv 5 43 true exStCancelOpened)
        exStCancelOpened)
      (balEmitted (closeCancelLoyaltyPayment exEnv 5 43 true exStCancelOpened)
        0)
      (by decide) rfl,
   escrow_pool_deltas.2.2.2.2.2 exEnv 5 43 exStCancelOpened
      (stateAfter
        (closeCancelLoyaltyPayment exEnv 5 43 false exStCancelOpened)
        exStCancelOpened)
      (balEmitted
        (closeCancelLoyaltyPayment exEnv 5 43 false exStCancelOpened) 0)
      (by decide) rfl⟩

end LoyaltyConsumer
